import Mathlib

/-!
Verification of the MSA IPO document generator (`src/app.py`).

The document-assembly core is shallowly embedded: python-docx paragraphs
become `Para` values (a list of styled `TextRun`s plus paragraph-format
attributes), the docx `Document` becomes `Doc` (body block list, optional
footer paragraph, page margins), and each `add_*` builder from the source
becomes a Lean function appending blocks to the document.  Lengths are in
hundredths of an inch (`Inches(1.0)` = 100, `Inches(2.5)` = 250); font
sizes are in points; `lineSpacing = some 1` stands for line spacing 1.0.
Attributes the Python code never sets are modelled as `none` / `false`
(docx leaves them to style inheritance).  A Python `KeyError` escaping a
builder is modelled by `Except.error`.
-/

/-- A docx text run: the text plus the font attributes the source sets on
`run.font`.  `font`/`sizePt` are `none` when the code does not assign them. -/
structure TextRun where
  text : String
  font : Option String := none
  sizePt : Option Nat := none
  bold : Bool := false
  italic : Bool := false
  underline : Bool := false
deriving DecidableEq

/-- Paragraph alignment values used by the source (WD_ALIGN_PARAGRAPH). -/
inductive Align where
  | left
  | center
  | justify
deriving DecidableEq

/-- A docx paragraph: its runs and the paragraph-format attributes the source
sets.  `doc.add_paragraph()` with no text and no formatting is the blank-line
separator block: all fields at their defaults. -/
structure Para where
  runs : List TextRun := []
  alignment : Option Align := none
  spaceAfterPt : Option Nat := none
  lineSpacing : Option Nat := none
  tabStops : List Nat := []
deriving DecidableEq

/-- The blank-line separator block produced by a bare `doc.add_paragraph()`. -/
def blankPara : Para := {}

/-- A paragraph is a blank-line separator exactly when it has no runs. -/
def isBlankPara (p : Para) : Bool := p.runs.isEmpty

/-- The docx document: body block sequence, the section footer paragraph, and
the four page margins (hundredths of an inch; `none` = not set by the code). -/
structure Doc where
  body : List Para := []
  footer : Option Para := none
  topMargin : Option Nat := none
  bottomMargin : Option Nat := none
  leftMargin : Option Nat := none
  rightMargin : Option Nat := none
deriving DecidableEq

/-- A Python `KeyError`: the dict being indexed and the missing key. -/
inductive PyError where
  | keyError (dict : String) (key : String)
deriving DecidableEq

/-- An entry of the `DEFAULT_FEES` table: display name, default fee amount and
fee-type label. -/
structure TaskDef where
  name : String
  amount : Nat
  type : String
deriving DecidableEq

/-- A value of the `selected_tasks` dict built by the selection layer:
display name, final fee and fee-type label. -/
structure SelTask where
  name : String
  fee : Nat
  type : String
deriving DecidableEq

/-- The `DEFAULT_FEES` table of `src/app.py` as a lookup function. -/
def DEFAULT_FEES : String → Option TaskDef
  | "110" => some ⟨"Civil Engineering Design", 40000, "Hourly, Not-to-Exceed"⟩
  | "120" => some ⟨"Civil Schematic Design", 35000, "Hourly, Not-to-Exceed"⟩
  | "130" => some ⟨"Civil Design Development", 45000, "Hourly, Not-to-Exceed"⟩
  | "140" => some ⟨"Civil Construction Documents", 50000, "Hourly, Not-to-Exceed"⟩
  | "150" => some ⟨"Civil Permitting", 40000, "Hourly, Not-to-Exceed"⟩
  | "210" => some ⟨"Meetings and Coordination", 20000, "Hourly, Not-to-Exceed"⟩
  | _ => none

/-- The `TASK_DESCRIPTIONS` table of `src/app.py` as a lookup function. -/
def TASK_DESCRIPTIONS : String → Option (List String)
  | "110" => some [
      "Kimley-Horn will prepare an onsite drainage report with supporting calculations showing the proposed development plan is consistent with the Southwest Florida Water Management District Basis of Review. This design will account for the stormwater design to support the development of the project site. The drainage report will include limited stormwater modeling to demonstrate that the Lot A site development will maintain the existing discharge rate and provide the required stormwater attenuation.",
      "The onsite drainage report will include calculations for 25-year 24-hour and 100-year 24-hour design storm conditions in accordance with Southwest Florida Water Management District Guidelines. A base stormwater design will be provided for the project site showing reasonable locations for stormwater conveyance features and stormwater management pond sizing."
    ]
  | "120" => some [
      "Kimley-Horn will prepare Civil Schematic Design deliverables in accordance with the Client\x27s Design Project Deliverables Checklist. For the Civil Schematic Design task, the deliverables that Kimley-Horn will provide consist of Civil Site Plan, Establish Finish Floor Elevations, Utility Will Serve Letters and Points of Service, Utility Routing and Easement Requirements."
    ]
  | "130" => some [
      "Upon Client approval of the Schematic Design task, Kimley-Horn will prepare Design Development Plans of the civil design in accordance with the Client\x27s Design Project Deliverables Checklist for Civil Design Development Deliverables. These documents will be approximately 50% complete and will include detail for City code review and preliminary pricing but will not include enough detail for construction bidding."
    ]
  | "140" => some [
      "Based on the approved Development Plan, Kimley-Horn will provide engineering and design services for the preparation of site construction plans for on-site improvements.",
      "Cover Sheet",
      "The cover sheet includes plan contents, vicinity map, legal description and team identification.",
      "Existing Conditions Plan/Demolition Plan",
      "This sheet will include and identify the required demolition of the existing items on the project site.",
      "Site Layout Plan",
      "This sheet will include building setback lines, property lines, outline of building footprint, parking areas, handicap access ramps, sidewalks, crosswalks, driveways, and traffic lanes.",
      "Grading and Drainage Plan",
      "This sheet will include existing and proposed spot elevations and contours, building finish floor elevations, parking area drainage patterns, and stormwater inlet and pipe locations and sizes.",
      "Utility Plan",
      "This sheet will show the location and size of all water, sanitary sewer and reclaimed water facilities required to serve the development.",
      "Erosion and Sediment Control Plan",
      "This sheet will include erosion and sediment control measures designed to be implemented during construction.",
      "Details",
      "Standard and modified typical construction details will be provided."
    ]
  | "150" => some [
      "Prepare and submit on the Client\x27s behalf the following permitting packages for review/approval of construction documents, and attend meetings required to obtain the following Agency approvals:",
      "USF Site Development Permit",
      "Southwest Florida Water Management District Environmental Resource Permit – Minor Modification",
      "City of Tampa Water Department Commitment / Construction Plan Approval",
      "Hillsborough County Environmental Protection Commission",
      "Kimley-Horn will coordinate with the City of Tampa Development Review and coordination with the Florida Department of Transportation and the Hillsborough County departments as needed to obtain the necessary regulatory and utility approval of the site plans and associated drainage facilities. We will assist the Client with meetings necessary to gain site plan approval.",
      "This scope does not anticipate a Geotechnical or Environmental Assessment Report, Survey, Topographic Survey, or Arborist Report be required for this permit application.",
      "It is assumed Client will provide the needed information regarding the development program and requirements. Kimley-Horn will work with the Owner and their team to integrate the necessary design requirements into the Civil design to support entitlement, platting, and development approvals.",
      "These permit applications will be submitted using the electronic permitting submittal system (web-based system) for the respective jurisdictions where applicable."
    ]
  | "210" => some [
      "Kimley-Horn will be available to provide miscellaneous project support at the direction of the Client. This task may include design meetings, additional permit support, permit research, or other miscellaneous tasks associated with the initial and future development of the project site. This task will also cover tasks such as design coordination meetings, scheduling, coordination with other client consultants, responses to additional rounds of agency comments."
    ]
  | _ => none

/-- Python string truthiness: a string is truthy iff it is non-empty. -/
def pyTruthy (s : String) : Bool := s != ""

/-- Truthiness of an optional string value (`None` and `""` are both falsy),
as used by `if project_name_line2:` and `project_info.get(...)` checks. -/
def pyTruthyOpt : Option String → Bool
  | none => false
  | some s => pyTruthy s

/-- Python `str.upper()` (ASCII case mapping, the only kind occurring here). -/
def pyUpper (s : String) : String := (s.toList.map Char.toUpper).asString

/-- Python `str.lower()` (ASCII case mapping, the only kind occurring here),
kept on the character-list side. -/
def pyLowerL (l : List Char) : List Char := l.map Char.toLower

/-- Python `s.endswith(c)` for a single character: the last character is `c`. -/
def pyEndsWith (s : String) (c : Char) : Bool := s.toList.getLast? == some c

/-- Python substring containment `pat in s`, on character lists. -/
def isSubstrOf (pat : List Char) : List Char → Bool
  | [] => pat.isEmpty
  | c :: rest => pat.isPrefixOf (c :: rest) || isSubstrOf pat rest

/-- One step list of Python `str.replace(pat, "")`: remove every
non-overlapping occurrence of `pat`, scanning left to right.  The fuel
argument (instantiated with the length of the scanned list, which bounds the
number of scanning steps) only makes the recursion structural. -/
def replaceDelAux (pat : List Char) : Nat → List Char → List Char
  | _, [] => []
  | 0, s => s
  | fuel + 1, c :: rest =>
    if pat.isPrefixOf (c :: rest) && !pat.isEmpty then
      replaceDelAux pat fuel ((c :: rest).drop pat.length)
    else
      c :: replaceDelAux pat fuel rest

/-- Python `s.replace(pat, "")`: delete all occurrences of `pat` in `s`. -/
def pyReplaceDel (pat s : String) : String :=
  (replaceDelAux pat.toList s.toList.length s.toList).asString

/-- Python `sorted` on strings: lexicographic order by character code point,
written on the underlying character lists. -/
def keyLe (a b : String) : Prop := a.toList ≤ b.toList

instance : DecidableRel keyLe := fun a b => inferInstanceAs (Decidable (a.toList ≤ b.toList))

/-- The keys of `selected_tasks` in the order Python renders them:
`sorted(selected_tasks.keys())`. -/
def sortedKeys (selected_tasks : List (String × SelTask)) : List String :=
  List.insertionSort keyLe (selected_tasks.map Prod.fst)

/-- The blocks appended by `add_title_section`: upper-cased project title
(bold, centered, 12pt), the IPO subtitle (bold, centered, 10pt), then two
blank lines. -/
def titleBlocks (project_name ipo_number : String) : List Para :=
  [ { runs := [{ text := pyUpper project_name, font := some "Calibri", sizePt := some 12,
                 bold := true }],
      alignment := some .center, spaceAfterPt := some 0, lineSpacing := some 1 },
    { runs := [{ text := "INDIVIDUAL PROJECT ORDER NUMBER " ++ ipo_number,
                 font := some "Calibri", sizePt := some 10, bold := true }],
      alignment := some .center, spaceAfterPt := some 0, lineSpacing := some 1 },
    blankPara,
    blankPara ]

/-- `add_title_section(doc, project_name, ipo_number)` from `src/app.py`. -/
def add_title_section (doc : Doc) (project_name ipo_number : String) : Doc :=
  { doc with body := doc.body ++ titleBlocks project_name ipo_number }

/-- The fixed legal-boilerplate sentence of the opening paragraph. -/
def openingText (client_name master_agreement_date : String) : String :=
  "Describing a specific agreement between Kimley-Horn and Associates, Inc. " ++
  "(the Consultant), and " ++ client_name ++
  " (the Client) in accordance with the terms of the " ++
  "Master Agreement for Continuing Professional Services dated " ++
  master_agreement_date ++ ", which is incorporated herein by reference."

/-- The blocks appended by `add_opening_paragraph`: one justified 11pt
paragraph, then a blank line. -/
def openingBlocks (client_name master_agreement_date : String) : List Para :=
  [ { runs := [{ text := openingText client_name master_agreement_date,
                 font := some "Calibri", sizePt := some 11 }],
      alignment := some .justify, spaceAfterPt := some 0, lineSpacing := some 1 },
    blankPara ]

/-- `add_opening_paragraph(doc, client_name, master_agreement_date)`. -/
def add_opening_paragraph (doc : Doc) (client_name master_agreement_date : String) : Doc :=
  { doc with body := doc.body ++ openingBlocks client_name master_agreement_date }

/-- A bold Calibri 11pt run, as used by the label/value identification lines. -/
def boldRun (t : String) : TextRun :=
  { text := t, font := some "Calibri", sizePt := some 11, bold := true }

/-- A bold+underlined Calibri 11pt run, as used by section headings. -/
def headingRun (t : String) : TextRun :=
  { text := t, font := some "Calibri", sizePt := some 11, bold := true, underline := true }

/-- A label/value identification line with a tab stop at 2.5 inches. -/
def kvPara (label value : String) : Para :=
  { runs := [boldRun label, boldRun value],
    spaceAfterPt := some 0, lineSpacing := some 1, tabStops := [250] }

/-- The optional second project-name line: a run holding only a tab character
(created by `para.add_run('\t')` and never given any font attributes) followed
by the bold second name line, with the same 2.5-inch tab stop. -/
def line2Para (project_name_line2 : String) : Para :=
  { runs := [{ text := "\t" }, boldRun project_name_line2],
    spaceAfterPt := some 0, lineSpacing := some 1, tabStops := [250] }

/-- The blocks appended by `add_project_identification`: bold+underlined
heading, blank line, the Project Name line, the optional second name line
(only when `project_name_line2` is truthy), the KH Project Manager line, the
Project Number line, and a final blank line. -/
def identBlocks (project_name : String) (project_name_line2 : Option String)
    (project_manager project_number : String) : List Para :=
  [ { runs := [headingRun "Identification of Project:"],
      alignment := some .left, spaceAfterPt := some 0, lineSpacing := some 1 },
    blankPara,
    kvPara "Project Name:\t" project_name ]
  ++ (if pyTruthyOpt project_name_line2 then [line2Para (project_name_line2.getD "")] else [])
  ++ [ kvPara "KH Project Manager:\t" project_manager,
       kvPara "Project Number:\t" project_number,
       blankPara ]

/-- `add_project_identification(doc, ...)` from `src/app.py`. -/
def add_project_identification (doc : Doc) (project_name : String)
    (project_name_line2 : Option String) (project_manager project_number : String) : Doc :=
  { doc with body := doc.body ++
      identBlocks project_name project_name_line2 project_manager project_number }

/-- The blocks appended by `add_section_with_heading`: bold+underlined
heading, blank line, then per content paragraph a justified 11pt paragraph
followed by a blank line. -/
def sectionBlocks (heading_text : String) (content_paragraphs : List String) : List Para :=
  [ { runs := [headingRun heading_text],
      alignment := some .left, spaceAfterPt := some 0, lineSpacing := some 1 },
    blankPara ]
  ++ content_paragraphs.flatMap (fun content =>
      [ { runs := [{ text := content, font := some "Calibri", sizePt := some 11 }],
          alignment := some .justify, spaceAfterPt := some 0, lineSpacing := some 1 },
        blankPara ])

/-- `add_section_with_heading(doc, heading_text, content_paragraphs)`. -/
def add_section_with_heading (doc : Doc) (heading_text : String)
    (content_paragraphs : List String) : Doc :=
  { doc with body := doc.body ++ sectionBlocks heading_text content_paragraphs }

/-- The `sub_section_keywords` list of `add_scope_of_services`. -/
def sub_section_keywords : List String :=
  ["cover sheet", "utility plan", "site layout", "site plan",
   "grading plan", "drainage plan", "paving", "erosion control",
   "detail", "existing conditions", "demolition"]

/-- The sub-section classification of `add_scope_of_services`:
`len(desc) < 100 and any(kw in desc.lower() for kw in sub_section_keywords)
and not desc.endswith('.')`. -/
def is_subsection (desc : String) : Bool :=
  decide (desc.toList.length < 100) &&
  sub_section_keywords.any (fun kw => isSubstrOf kw.toList (pyLowerL desc.toList)) &&
  !(pyEndsWith desc '.')

/-- The blocks produced for one description fragment: a justified 11pt
paragraph, italic when classified as a sub-section heading, followed by a
blank line only when it is not a sub-section heading. -/
def descBlocks (desc : String) : List Para :=
  [ { runs := [{ text := desc, font := some "Calibri", sizePt := some 11,
                 italic := is_subsection desc }],
      alignment := some .justify, spaceAfterPt := some 0, lineSpacing := some 1 } ]
  ++ (if is_subsection desc then [] else [blankPara])

/-- The rendered task heading text:
`f'Task {task_num} – {task["name"].replace("Civil ", "")}'`. -/
def task_heading_text (task_num name : String) : String :=
  "Task " ++ task_num ++ " – " ++ pyReplaceDel "Civil " name

/-- The blocks produced for one selected task: the bold+underlined justified
task heading, a blank line, then the blocks of each description fragment. -/
def taskBlocks (task_num : String) (task : SelTask) (descriptions : List String) : List Para :=
  [ { runs := [{ text := task_heading_text task_num task.name, font := some "Calibri",
                 sizePt := some 11, bold := true, underline := true }],
      alignment := some .justify, spaceAfterPt := some 0, lineSpacing := some 1 },
    blankPara ]
  ++ descriptions.flatMap descBlocks

/-- The `for task_num in sorted(selected_tasks.keys())` loop of
`add_scope_of_services`: for each key look up the task record and its
descriptions (a missing key raises `KeyError`) and append the task blocks. -/
def scopeLoop (selected_tasks : List (String × SelTask)) :
    List String → List Para → Except PyError (List Para)
  | [], acc => .ok acc
  | task_num :: rest, acc =>
    match selected_tasks.lookup task_num with
    | none => .error (.keyError "selected_tasks" task_num)
    | some task =>
      match TASK_DESCRIPTIONS task_num with
      | none => .error (.keyError "TASK_DESCRIPTIONS" task_num)
      | some descriptions => scopeLoop selected_tasks rest (acc ++ taskBlocks task_num task descriptions)

/-- The bold+underlined scope-section heading and its following blank line. -/
def scopeHeaderBlocks : List Para :=
  [ { runs := [headingRun "Specific scope of basic Services:"],
      alignment := some .left, spaceAfterPt := some 0, lineSpacing := some 1 },
    blankPara ]

/-- The blocks appended by `add_scope_of_services`: the section heading and
blank line, then the blocks of every selected task in sorted key order. -/
def scopeBlocks (selected_tasks : List (String × SelTask)) : Except PyError (List Para) :=
  scopeLoop selected_tasks (sortedKeys selected_tasks) scopeHeaderBlocks

/-- `add_scope_of_services(doc, selected_tasks)` from `src/app.py`. -/
def add_scope_of_services (doc : Doc) (selected_tasks : List (String × SelTask)) :
    Except PyError Doc :=
  (scopeBlocks selected_tasks).map (fun bs => { doc with body := doc.body ++ bs })

/-- The footer paragraph set by `add_simple_footer`: the caption at 9pt
Calibri, left-aligned, in the page footer region. -/
def footerPara (footer_text : String) : Para :=
  { runs := [{ text := footer_text, font := some "Calibri", sizePt := some 9 }],
    alignment := some .left }

/-- `add_simple_footer(doc, footer_text="rev 07/2024")` from `src/app.py`. -/
def add_simple_footer (doc : Doc) (footer_text : String) : Doc :=
  { doc with footer := some (footerPara footer_text) }

/-- The `project_info` record handed to the generator. -/
structure ProjectInfo where
  title : String
  ipo_number : String
  name : String
  name_line2 : Option String := none
  project_manager : String
  project_number : String
  overall_understanding : Option String := none
  lot_understanding : Option String := none
deriving DecidableEq

/-- The `client_info` record handed to the generator. -/
structure ClientInfo where
  name : String
  master_agreement_date : String
deriving DecidableEq

/-- `generate_msa_ipo_document(project_info, client_info, selected_tasks,
output_path)` from `src/app.py`: set 1-inch margins, append the sections in
the fixed order (title, opening clause, identification, the two conditional
understanding sections, scope of services), set the footer, save.  On success
the saved document and the path it was saved at are returned; a `KeyError`
escaping `add_scope_of_services` aborts before `doc.save`, so nothing is
saved or returned. -/
def generate_msa_ipo_document (project_info : ProjectInfo) (client_info : ClientInfo)
    (selected_tasks : List (String × SelTask)) (output_path : String) :
    Except PyError (Doc × String) :=
  let doc : Doc := { topMargin := some 100, bottomMargin := some 100,
                     leftMargin := some 100, rightMargin := some 100 }
  let doc := add_title_section doc project_info.title project_info.ipo_number
  let doc := add_opening_paragraph doc client_info.name client_info.master_agreement_date
  let doc := add_project_identification doc project_info.name project_info.name_line2
      project_info.project_manager project_info.project_number
  let doc := if pyTruthyOpt project_info.overall_understanding then
      add_section_with_heading doc "Overall Project Understanding:"
        [project_info.overall_understanding.getD ""]
    else doc
  let doc := if pyTruthyOpt project_info.lot_understanding then
      add_section_with_heading doc "Lot Specific Project Understanding:"
        [project_info.lot_understanding.getD ""]
    else doc
  match add_scope_of_services doc selected_tasks with
  | .error e => .error e
  | .ok doc => .ok (add_simple_footer doc "rev 07/2024", output_path)

/-- The `selected_tasks[task_num] = {...}` record built by the selection
layer (lines 504-510 of `src/app.py`):
`final_fee = fee_amount if fee_amount is not None else task['amount']`. -/
def selected_task_record (task : TaskDef) (fee_amount : Option Nat) : SelTask :=
  { name := task.name,
    fee := match fee_amount with
           | some f => f
           | none => task.amount,
    type := task.type }

/-- The transformation claim C6 describes (following the spec wording, for
comparison with the source behaviour): remove only a leading "Civil " prefix
of the name, leaving any other occurrence unchanged. -/
def stripLeadingCivil (n : String) : String :=
  if "Civil ".toList.isPrefixOf n.toList then (n.toList.drop 6).asString else n

/-- Recognizes the task headings inside the scope-of-services blocks: the
only justified paragraphs there carrying a bold+underlined run. -/
def isTaskHeadingPara (p : Para) : Bool :=
  p.alignment == some Align.justify && p.runs.any (fun r => r.bold && r.underline)

/-- The text of the first run of a paragraph (empty for a blank separator). -/
def firstRunText (p : Para) : String :=
  match p.runs with
  | [] => ""
  | r :: _ => r.text

/-- The task-heading texts of a block sequence, in rendering order. -/
def renderedTaskHeadings (ps : List Para) : List String :=
  (ps.filter isTaskHeadingPara).map firstRunText

/-- Placeholder record used only underneath an `isSome` hypothesis. -/
def defaultSelTask : SelTask := ⟨"", 0, ""⟩

/-- The blocks of one selected task keyed by `task_num`, with both dict
lookups resolved (meaningful when both lookups succeed). -/
def taskBlocksOf (selected_tasks : List (String × SelTask)) (task_num : String) : List Para :=
  taskBlocks task_num ((selected_tasks.lookup task_num).getD defaultSelTask)
    ((TASK_DESCRIPTIONS task_num).getD [])

/-- The heading text rendered for the selected task keyed by `task_num`. -/
def headingTextOf (selected_tasks : List (String × SelTask)) (task_num : String) : String :=
  task_heading_text task_num ((selected_tasks.lookup task_num).getD defaultSelTask).name

/-- Number of blank-line separator blocks in a block sequence. -/
def countBlankParas (ps : List Para) : Nat := ps.countP (fun p => isBlankPara p)

/-- Claim C10 font discipline for a single run, as the code actually has it:
either the run is explicitly given the Calibri font, or it is the bare tab
run of the optional second project-name line, which gets no font at all. -/
def runOk (r : TextRun) : Prop :=
  r.font = some "Calibri" ∨ (r.text = "\t" ∧ r.font = none)

/-- Claim C10 paragraph discipline: all runs obey `runOk`, and every
non-blank paragraph has space-after 0pt and line spacing 1.0. -/
def paraOk (p : Para) : Prop :=
  (∀ r ∈ p.runs, runOk r) ∧
  (p.runs ≠ [] → p.spaceAfterPt = some 0 ∧ p.lineSpacing = some 1)

theorem isSubstrOf_iff (pat : List Char) : ∀ s : List Char, isSubstrOf pat s = true ↔ pat <:+: s := by
  intro s
  induction s with
  | nil =>
    simp only [isSubstrOf, List.isEmpty_iff]
    constructor
    · rintro rfl; exact List.nil_infix
    · intro h; exact List.eq_nil_of_infix_nil h
  | cons c rest ih =>
    simp [isSubstrOf, List.isPrefixOf_iff_prefix, ih, List.infix_cons_iff]

theorem singleton_suffix_iff (l : List Char) (a : Char) : [a] <:+ l ↔ l.getLast? = some a := by
  constructor
  · rintro ⟨t, rfl⟩
    exact List.getLast?_concat t
  · intro h
    have hne : l ≠ [] := by
      intro hl; rw [hl] at h; cases h
    have hlast : l.getLast hne = a := by
      have := List.getLast?_eq_getLast l hne
      rw [this] at h
      exact Option.some.inj h
    refine ⟨l.dropLast, ?_⟩
    rw [← hlast]
    exact List.dropLast_append_getLast hne

theorem is_subsection_iff (desc : String) :
    is_subsection desc = true ↔
      (desc.toList.length < 100 ∧
       (∃ kw ∈ sub_section_keywords, kw.toList <:+: desc.toList.map Char.toLower) ∧
       ¬ ['.'] <:+ desc.toList) := by
  simp [is_subsection, List.any_eq_true, isSubstrOf_iff, pyLowerL, pyEndsWith,
        singleton_suffix_iff, Bool.not_eq_true', and_assoc]

theorem except_match_map (r : Except PyError Doc) (f : Doc → Doc) (o : String) :
    ((match r with
      | .error e => .error e
      | .ok d => .ok (f d, o)) : Except PyError (Doc × String)).map Prod.fst = r.map f := by
  cases r <;> rfl

/-- C1: a description fragment in the scope-of-services section is rendered as
an italicized sub-heading (with no following blank-line block) exactly when
its length is below 100, it contains one of the caption keywords as a
case-insensitive substring, and it does not end with a period; every other
fragment becomes a plain justified paragraph followed by exactly one
blank-line block. -/
theorem subheading_rule_C1 (desc : String) :
    descBlocks desc =
      if desc.toList.length < 100 ∧
         (∃ kw ∈ sub_section_keywords, kw.toList <:+: desc.toList.map Char.toLower) ∧
         ¬ ['.'] <:+ desc.toList
      then [{ runs := [{ text := desc, font := some "Calibri", sizePt := some 11,
                         bold := false, italic := true, underline := false }],
              alignment := some Align.justify, spaceAfterPt := some 0, lineSpacing := some 1,
              tabStops := [] }]
      else [{ runs := [{ text := desc, font := some "Calibri", sizePt := some 11,
                         bold := false, italic := false, underline := false }],
              alignment := some Align.justify, spaceAfterPt := some 0, lineSpacing := some 1,
              tabStops := [] },
            blankPara] := by
  cases hb : is_subsection desc with
  | true =>
    rw [if_pos ((is_subsection_iff desc).mp hb)]
    simp [descBlocks, hb]
  | false =>
    rw [if_neg (fun hc => by rw [(is_subsection_iff desc).mpr hc] at hb; cases hb)]
    simp [descBlocks, hb]

/-- C4: with no user-entered fee the selected-task record carries the catalog
default fee amount of the task code; an explicit fee overrides it. -/
theorem fee_defaulting_C4 (code : String) (td : TaskDef)
    (_h : DEFAULT_FEES code = some td) (v : Nat) :
    (selected_task_record td none).fee = td.amount ∧
    (selected_task_record td (some v)).fee = v ∧
    (selected_task_record td none).name = td.name ∧
    (selected_task_record td none).type = td.type :=
  ⟨rfl, rfl, rfl, rfl⟩

theorem fee_defaulting_C4_w :
    (selected_task_record ⟨"Meetings and Coordination", 20000, "Hourly, Not-to-Exceed"⟩ none).fee
        = 20000 ∧
    (selected_task_record ⟨"Meetings and Coordination", 20000, "Hourly, Not-to-Exceed"⟩
        (some 12345)).fee = 12345 ∧
    (selected_task_record ⟨"Meetings and Coordination", 20000, "Hourly, Not-to-Exceed"⟩ none).name
        = "Meetings and Coordination" ∧
    (selected_task_record ⟨"Meetings and Coordination", 20000, "Hourly, Not-to-Exceed"⟩ none).type
        = "Hourly, Not-to-Exceed" :=
  fee_defaulting_C4 "210" ⟨"Meetings and Coordination", 20000, "Hourly, Not-to-Exceed"⟩
    (by decide) 12345

/-- C5 counterexample: the fee check is `is not None`, not truthiness, so an
entered fee of 0 for task 110 is kept as 0 and is not replaced by the catalog
default 40000; the resulting record differs from the absent-fee record. -/
theorem fee_zero_C5_cex :
    DEFAULT_FEES "110" = some ⟨"Civil Engineering Design", 40000, "Hourly, Not-to-Exceed"⟩ ∧
    (selected_task_record ⟨"Civil Engineering Design", 40000, "Hourly, Not-to-Exceed"⟩
        (some 0)).fee = 0 ∧
    selected_task_record ⟨"Civil Engineering Design", 40000, "Hourly, Not-to-Exceed"⟩ (some 0) ≠
      selected_task_record ⟨"Civil Engineering Design", 40000, "Hourly, Not-to-Exceed"⟩ none := by
  decide

/-- C5 amended: the defaulting check is a None-check, so an explicit 0 fee is
preserved as 0, and a zero fee and an absent fee yield different final task
records whenever the catalog default amount is nonzero. -/
theorem fee_zero_C5_amended (td : TaskDef) (h : td.amount ≠ 0) :
    (selected_task_record td (some 0)).fee = 0 ∧
    selected_task_record td (some 0) ≠ selected_task_record td none := by
  refine ⟨rfl, fun he => h ?_⟩
  have hf : (selected_task_record td (some 0)).fee = (selected_task_record td none).fee :=
    congrArg SelTask.fee he
  exact hf.symm

theorem fee_zero_C5_amended_w :
    (selected_task_record ⟨"Civil Engineering Design", 40000, "Hourly, Not-to-Exceed"⟩
        (some 0)).fee = 0 ∧
    selected_task_record ⟨"Civil Engineering Design", 40000, "Hourly, Not-to-Exceed"⟩ (some 0) ≠
      selected_task_record ⟨"Civil Engineering Design", 40000, "Hourly, Not-to-Exceed"⟩ none :=
  fee_zero_C5_amended ⟨"Civil Engineering Design", 40000, "Hourly, Not-to-Exceed"⟩ (by decide)

/-- C6 counterexample: the heading builder removes every occurrence of
"Civil " (Python `str.replace`), not only a leading prefix: on the display
name "Civil Civil Design" the rendered heading is "Task 110 – Design", not
the "Task 110 – Civil Design" the claim requires. -/
theorem civil_prefix_C6_cex :
    task_heading_text "110" "Civil Civil Design" = "Task 110 – Design" ∧
    task_heading_text "110" "Civil Civil Design" ≠
      "Task 110 – " ++ stripLeadingCivil "Civil Civil Design" := by
  decide

/-- C6 amended: the rendered heading is "Task {code} – {name}" with every
occurrence of "Civil " deleted from the name; on every catalog display name
this coincides with stripping only the leading "Civil " prefix, since no
catalog name contains an interior occurrence. -/
theorem civil_prefix_C6_amended (task_num name code : String) (td : TaskDef)
    (h : DEFAULT_FEES code = some td) :
    task_heading_text task_num name =
      "Task " ++ task_num ++ " – " ++ pyReplaceDel "Civil " name ∧
    pyReplaceDel "Civil " td.name = stripLeadingCivil td.name := by
  refine ⟨rfl, ?_⟩
  unfold DEFAULT_FEES at h
  split at h
  all_goals first
    | exact Option.noConfusion h
    | (simp only [Option.some.injEq] at h; subst h; decide)

theorem civil_prefix_C6_amended_w :
    task_heading_text "110" "Civil Engineering Design" =
      "Task " ++ "110" ++ " – " ++ pyReplaceDel "Civil " "Civil Engineering Design" ∧
    pyReplaceDel "Civil "
        (TaskDef.mk "Civil Engineering Design" 40000 "Hourly, Not-to-Exceed").name =
      stripLeadingCivil
        (TaskDef.mk "Civil Engineering Design" 40000 "Hourly, Not-to-Exceed").name :=
  civil_prefix_C6_amended "110" "Civil Engineering Design" "110"
    ⟨"Civil Engineering Design", 40000, "Hourly, Not-to-Exceed"⟩ (by decide)

/-- C9: the assembler is deterministic — identical input records give
identical documents (same blocks, text and formatting), independently of the
output path; no run-dependent data is embedded. -/
theorem determinism_C9 (p1 p2 : ProjectInfo) (c1 c2 : ClientInfo)
    (t1 t2 : List (String × SelTask)) (o1 o2 : String)
    (hp : p1 = p2) (hc : c1 = c2) (ht : t1 = t2) :
    (generate_msa_ipo_document p1 c1 t1 o1).map Prod.fst =
      (generate_msa_ipo_document p2 c2 t2 o2).map Prod.fst := by
  subst hp; subst hc; subst ht
  simp only [generate_msa_ipo_document]
  rw [except_match_map, except_match_map]

theorem determinism_C9_w :
    (generate_msa_ipo_document
        ⟨"Example Project", "01", "Example Project", none, "J. Doe, PE", "100000001",
         some "Overall text.", some "Lot text."⟩
        ⟨"ACE Fletcher LLC", "August 15, 2024"⟩
        [("210", ⟨"Meetings and Coordination", 20000, "Hourly, Not-to-Exceed"⟩)]
        "a.docx").map Prod.fst =
      (generate_msa_ipo_document
        ⟨"Example Project", "01", "Example Project", none, "J. Doe, PE", "100000001",
         some "Overall text.", some "Lot text."⟩
        ⟨"ACE Fletcher LLC", "August 15, 2024"⟩
        [("210", ⟨"Meetings and Coordination", 20000, "Hourly, Not-to-Exceed"⟩)]
        "b.docx").map Prod.fst :=
  determinism_C9 _ _ _ _ _ _ "a.docx" "b.docx" rfl rfl rfl

/-- C7: the second project-name line paragraph is emitted iff the optional
field is present and non-empty; when present it is inserted as exactly one
extra non-blank paragraph after the Project Name line, leaving the number of
blank-line separator blocks unchanged, and an absent field renders exactly
like an empty one. -/
theorem name_line2_C7 (project_name project_manager project_number s : String) (h : s ≠ "") :
    identBlocks project_name (some s) project_manager project_number =
      (identBlocks project_name none project_manager project_number).take 3
      ++ [line2Para s]
      ++ (identBlocks project_name none project_manager project_number).drop 3 ∧
    isBlankPara (line2Para s) = false ∧
    countBlankParas (identBlocks project_name (some s) project_manager project_number) =
      countBlankParas (identBlocks project_name none project_manager project_number) ∧
    (identBlocks project_name (some s) project_manager project_number).length =
      (identBlocks project_name none project_manager project_number).length + 1 ∧
    identBlocks project_name (some "") project_manager project_number =
      identBlocks project_name none project_manager project_number := by
  have hs : pyTruthyOpt (some s) = true := by
    simp [pyTruthyOpt, pyTruthy, h]
  refine ⟨?_, rfl, ?_, ?_, ?_⟩
  · simp [identBlocks, hs, pyTruthyOpt, pyTruthy, h]
  · simp [identBlocks, hs, pyTruthyOpt, pyTruthy, h, countBlankParas, isBlankPara, kvPara,
          line2Para, blankPara, List.countP_cons, List.countP_append]
  · simp [identBlocks, hs, pyTruthyOpt, pyTruthy, h]
  · simp [identBlocks, pyTruthyOpt, pyTruthy]

theorem name_line2_C7_w :
    identBlocks "Example Project" (some "Lot A Hotel") "J. Doe, PE" "100000001" =
      (identBlocks "Example Project" none "J. Doe, PE" "100000001").take 3
      ++ [line2Para "Lot A Hotel"]
      ++ (identBlocks "Example Project" none "J. Doe, PE" "100000001").drop 3 ∧
    isBlankPara (line2Para "Lot A Hotel") = false ∧
    countBlankParas (identBlocks "Example Project" (some "Lot A Hotel") "J. Doe, PE" "100000001") =
      countBlankParas (identBlocks "Example Project" none "J. Doe, PE" "100000001") ∧
    (identBlocks "Example Project" (some "Lot A Hotel") "J. Doe, PE" "100000001").length =
      (identBlocks "Example Project" none "J. Doe, PE" "100000001").length + 1 ∧
    identBlocks "Example Project" (some "") "J. Doe, PE" "100000001" =
      identBlocks "Example Project" none "J. Doe, PE" "100000001" :=
  name_line2_C7 "Example Project" "J. Doe, PE" "100000001" "Lot A Hotel" (by decide)

theorem string_toList_inj {a b : String} (h : a.toList = b.toList) : a = b := by
  cases a; cases b; exact congrArg String.mk h

instance : IsTotal String keyLe := ⟨fun a b => le_total a.toList b.toList⟩

instance : IsTrans String keyLe := ⟨fun _ _ _ hab hbc => le_trans hab hbc⟩

instance : IsAntisymm String keyLe :=
  ⟨fun _ _ hab hba => string_toList_inj (le_antisymm hab hba)⟩

theorem sortedKeys_perm (sel : List (String × SelTask)) :
    (sortedKeys sel).Perm (sel.map Prod.fst) :=
  List.perm_insertionSort _ _

theorem sortedKeys_sorted (sel : List (String × SelTask)) :
    List.Sorted keyLe (sortedKeys sel) :=
  List.sorted_insertionSort _ _

theorem sortedKeys_strict (sel : List (String × SelTask))
    (hnd : (sel.map Prod.fst).Nodup) :
    List.Pairwise (fun a b : String => a.toList < b.toList) (sortedKeys sel) := by
  have hs : List.Pairwise keyLe (sortedKeys sel) := sortedKeys_sorted sel
  have hn : (sortedKeys sel).Nodup := ((sortedKeys_perm sel).nodup_iff).mpr hnd
  exact (hs.and hn).imp fun hab =>
    lt_of_le_of_ne hab.1 (fun hc => hab.2 (string_toList_inj hc))

theorem sortedKeys_eq_of_perm (l1 l2 : List (String × SelTask)) (h : l1.Perm l2) :
    sortedKeys l1 = sortedKeys l2 :=
  List.eq_of_perm_of_sorted
    ((sortedKeys_perm l1).trans ((h.map Prod.fst).trans (sortedKeys_perm l2).symm))
    (sortedKeys_sorted l1) (sortedKeys_sorted l2)

theorem lookup_isSome_of_mem_keys (l : List (String × SelTask)) (k : String)
    (h : k ∈ l.map Prod.fst) : (l.lookup k).isSome := by
  rw [List.lookup_isSome_iff]
  rcases List.mem_map.mp h with ⟨q, hq, hk⟩
  exact ⟨q, hq, by simp [hk]⟩

theorem lookup_eq_of_perm : ∀ {l1 l2 : List (String × SelTask)}, l1.Perm l2 →
    (l1.map Prod.fst).Nodup → ∀ a : String, l1.lookup a = l2.lookup a := by
  intro l1 l2 h
  induction h with
  | nil => intro _ _; rfl
  | cons x h ih =>
    intro hnd a
    obtain ⟨k, v⟩ := x
    simp only [List.map_cons, List.nodup_cons] at hnd
    by_cases hak : a = k
    · subst hak; simp [List.lookup_cons]
    · simp [List.lookup_cons, beq_eq_false_iff_ne.mpr hak, ih hnd.2 a]
  | swap x y l =>
    intro hnd a
    obtain ⟨k1, v1⟩ := x
    obtain ⟨k2, v2⟩ := y
    simp only [List.map_cons, List.nodup_cons, List.mem_cons] at hnd
    by_cases h2 : a = k2 <;> by_cases h1 : a = k1
    · exfalso; subst h2; subst h1; simp at hnd
    · subst h2; simp [List.lookup_cons, beq_eq_false_iff_ne.mpr h1]
    · subst h1; simp [List.lookup_cons, beq_eq_false_iff_ne.mpr h2]
    · simp [List.lookup_cons, beq_eq_false_iff_ne.mpr h1, beq_eq_false_iff_ne.mpr h2]
  | trans h1 h2 ih1 ih2 =>
    intro hnd a
    rw [ih1 hnd a, ih2 ((h1.map Prod.fst).nodup hnd) a]

theorem scopeLoop_ok (sel : List (String × SelTask)) :
    ∀ (ks : List String) (acc : List Para),
      (∀ k ∈ ks, (sel.lookup k).isSome ∧ (TASK_DESCRIPTIONS k).isSome) →
      scopeLoop sel ks acc = .ok (acc ++ ks.flatMap (taskBlocksOf sel)) := by
  intro ks
  induction ks with
  | nil => intro acc _; simp [scopeLoop]
  | cons k rest ih =>
    intro acc h
    obtain ⟨h1, h2⟩ := h k (by simp)
    obtain ⟨task, htask⟩ := Option.isSome_iff_exists.mp h1
    obtain ⟨descs, hdescs⟩ := Option.isSome_iff_exists.mp h2
    simp only [scopeLoop, htask, hdescs]
    rw [ih _ (fun k2 hk2 => h k2 (List.mem_cons_of_mem _ hk2))]
    simp [taskBlocksOf, htask, hdescs, List.append_assoc]

theorem scopeLoop_ok_mem (sel : List (String × SelTask)) :
    ∀ (ks : List String) (acc ps : List Para), scopeLoop sel ks acc = .ok ps →
      ∀ k ∈ ks, (sel.lookup k).isSome ∧ (TASK_DESCRIPTIONS k).isSome := by
  intro ks
  induction ks with
  | nil => intro acc ps _ k hk; cases hk
  | cons k0 rest ih =>
    intro acc ps h k hk
    simp only [scopeLoop] at h
    cases htask : sel.lookup k0 with
    | none => rw [htask] at h; exact Except.noConfusion h
    | some task =>
      rw [htask] at h
      cases hdescs : TASK_DESCRIPTIONS k0 with
      | none => rw [hdescs] at h; exact Except.noConfusion h
      | some descs =>
        rw [hdescs] at h
        rcases List.mem_cons.mp hk with rfl | hk2
        · exact ⟨by simp [htask], by simp [hdescs]⟩
        · exact ih _ _ h k hk2

theorem scopeLoop_congr (sel1 sel2 : List (String × SelTask)) :
    ∀ (ks : List String) (acc : List Para),
      (∀ k ∈ ks, sel1.lookup k = sel2.lookup k) →
      scopeLoop sel1 ks acc = scopeLoop sel2 ks acc := by
  intro ks
  induction ks with
  | nil => intro _ _; rfl
  | cons k0 rest ih =>
    intro acc h
    have h0 := h k0 (by simp)
    simp only [scopeLoop, h0]
    cases sel2.lookup k0 with
    | none => rfl
    | some task =>
      cases TASK_DESCRIPTIONS k0 with
      | none => rfl
      | some descs => exact ih _ (fun k hk => h k (List.mem_cons_of_mem _ hk))

theorem filter_taskHeading_descBlocks (desc : String) :
    (descBlocks desc).filter isTaskHeadingPara = [] := by
  cases h : is_subsection desc <;>
    simp [descBlocks, h, isTaskHeadingPara, blankPara]

theorem filter_taskHeading_flatMap (descs : List String) :
    (descs.flatMap descBlocks).filter isTaskHeadingPara = [] := by
  induction descs with
  | nil => rfl
  | cons d rest ih =>
    simp [List.flatMap_cons, List.filter_append, filter_taskHeading_descBlocks, ih]

theorem filter_taskHeading_taskBlocks (k : String) (t : SelTask) (descs : List String) :
    (taskBlocks k t descs).filter isTaskHeadingPara =
      [{ runs := [{ text := task_heading_text k t.name, font := some "Calibri",
                    sizePt := some 11, bold := true, underline := true }],
         alignment := some Align.justify, spaceAfterPt := some 0, lineSpacing := some 1,
         tabStops := [] }] := by
  simp [taskBlocks, List.filter_append, filter_taskHeading_flatMap, isTaskHeadingPara,
        blankPara]

theorem renderedTaskHeadings_append (xs ys : List Para) :
    renderedTaskHeadings (xs ++ ys) =
      renderedTaskHeadings xs ++ renderedTaskHeadings ys := by
  simp [renderedTaskHeadings, List.filter_append]

theorem renderedTaskHeadings_taskBlocksOf (sel : List (String × SelTask)) (k : String) :
    renderedTaskHeadings (taskBlocksOf sel k) = [headingTextOf sel k] := by
  simp [taskBlocksOf, renderedTaskHeadings, filter_taskHeading_taskBlocks, firstRunText,
        headingTextOf]

theorem renderedTaskHeadings_flatMap (sel : List (String × SelTask)) :
    ∀ ks : List String,
      renderedTaskHeadings (ks.flatMap (taskBlocksOf sel)) = ks.map (headingTextOf sel) := by
  intro ks
  induction ks with
  | nil => rfl
  | cons k rest ih =>
    simp [List.flatMap_cons, renderedTaskHeadings_append,
          renderedTaskHeadings_taskBlocksOf, ih]

theorem renderedTaskHeadings_header : renderedTaskHeadings scopeHeaderBlocks = [] := by
  decide

/-- C2: with every selected code in the catalog, the scope-of-services
renderer lists the tasks exactly in the sorted order of the task codes — the
rendered heading sequence follows a strictly ascending permutation of the
selected keys — and any two selections holding the same entries in different
insertion orders produce identical output. -/
theorem task_ordering_C2 (doc : Doc) (l1 l2 : List (String × SelTask))
    (hnd : (l1.map Prod.fst).Nodup) (hperm : l1.Perm l2)
    (hcat : ∀ k ∈ l1.map Prod.fst, (TASK_DESCRIPTIONS k).isSome) :
    add_scope_of_services doc l1 = add_scope_of_services doc l2 ∧
    ∃ ps, scopeBlocks l1 = .ok ps ∧
      renderedTaskHeadings ps = (sortedKeys l1).map (headingTextOf l1) ∧
      (sortedKeys l1).Perm (l1.map Prod.fst) ∧
      List.Pairwise (fun a b : String => a.toList < b.toList) (sortedKeys l1) := by
  have hok : ∀ k ∈ sortedKeys l1, (l1.lookup k).isSome ∧ (TASK_DESCRIPTIONS k).isSome := by
    intro k hk
    have hk2 : k ∈ l1.map Prod.fst := ((sortedKeys_perm l1).mem_iff).mp hk
    exact ⟨lookup_isSome_of_mem_keys l1 k hk2, hcat k hk2⟩
  refine ⟨?_, ?_⟩
  · have hkeys : sortedKeys l1 = sortedKeys l2 := sortedKeys_eq_of_perm l1 l2 hperm
    unfold add_scope_of_services scopeBlocks
    rw [hkeys, scopeLoop_congr l1 l2 (sortedKeys l2) scopeHeaderBlocks
          (fun k _ => lookup_eq_of_perm hperm hnd k)]
  · refine ⟨scopeHeaderBlocks ++ (sortedKeys l1).flatMap (taskBlocksOf l1),
      scopeLoop_ok l1 (sortedKeys l1) scopeHeaderBlocks hok, ?_,
      sortedKeys_perm l1, sortedKeys_strict l1 hnd⟩
    rw [renderedTaskHeadings_append, renderedTaskHeadings_header,
        renderedTaskHeadings_flatMap]
    rfl

theorem task_ordering_C2_w :
    add_scope_of_services {}
        [("210", ⟨"Meetings and Coordination", 20000, "Hourly, Not-to-Exceed"⟩),
         ("110", ⟨"Civil Engineering Design", 40000, "Hourly, Not-to-Exceed"⟩)] =
      add_scope_of_services {}
        [("110", ⟨"Civil Engineering Design", 40000, "Hourly, Not-to-Exceed"⟩),
         ("210", ⟨"Meetings and Coordination", 20000, "Hourly, Not-to-Exceed"⟩)] ∧
    ∃ ps, scopeBlocks
        [("210", ⟨"Meetings and Coordination", 20000, "Hourly, Not-to-Exceed"⟩),
         ("110", ⟨"Civil Engineering Design", 40000, "Hourly, Not-to-Exceed"⟩)] = .ok ps ∧
      renderedTaskHeadings ps =
        (sortedKeys
          [("210", ⟨"Meetings and Coordination", 20000, "Hourly, Not-to-Exceed"⟩),
           ("110", ⟨"Civil Engineering Design", 40000, "Hourly, Not-to-Exceed"⟩)]).map
          (headingTextOf
            [("210", ⟨"Meetings and Coordination", 20000, "Hourly, Not-to-Exceed"⟩),
             ("110", ⟨"Civil Engineering Design", 40000, "Hourly, Not-to-Exceed"⟩)]) ∧
      (sortedKeys
          [("210", ⟨"Meetings and Coordination", 20000, "Hourly, Not-to-Exceed"⟩),
           ("110", ⟨"Civil Engineering Design", 40000, "Hourly, Not-to-Exceed"⟩)]).Perm
        ["210", "110"] ∧
      List.Pairwise (fun a b : String => a.toList < b.toList)
        (sortedKeys
          [("210", ⟨"Meetings and Coordination", 20000, "Hourly, Not-to-Exceed"⟩),
           ("110", ⟨"Civil Engineering Design", 40000, "Hourly, Not-to-Exceed"⟩)]) :=
  task_ordering_C2 {}
    [("210", ⟨"Meetings and Coordination", 20000, "Hourly, Not-to-Exceed"⟩),
     ("110", ⟨"Civil Engineering Design", 40000, "Hourly, Not-to-Exceed"⟩)]
    [("110", ⟨"Civil Engineering Design", 40000, "Hourly, Not-to-Exceed"⟩),
     ("210", ⟨"Meetings and Coordination", 20000, "Hourly, Not-to-Exceed"⟩)]
    (by decide) (by decide) (by decide)

/-- C3: when some selected task code is missing from the catalog, document
assembly stops with a `KeyError` (the ConfigurationError condition of the
spec): the generator returns an error and never reaches `doc.save`, so no
output artifact and no partial document are produced. -/
theorem unknown_task_C3 (p : ProjectInfo) (c : ClientInfo) (t : List (String × SelTask))
    (o : String) (k : String) (hk : k ∈ t.map Prod.fst)
    (hmiss : TASK_DESCRIPTIONS k = none) :
    ∃ e, generate_msa_ipo_document p c t o = .error e := by
  have hknotok : ∀ ps, scopeBlocks t ≠ .ok ps := by
    intro ps hps
    have hmem : k ∈ sortedKeys t := ((sortedKeys_perm t).mem_iff).mpr hk
    have := (scopeLoop_ok_mem t (sortedKeys t) scopeHeaderBlocks ps hps k hmem).2
    rw [hmiss] at this
    simp at this
  cases hsb : scopeBlocks t with
  | ok ps => exact absurd hsb (hknotok ps)
  | error e =>
    refine ⟨e, ?_⟩
    simp only [generate_msa_ipo_document, add_scope_of_services, hsb]
    rfl

theorem unknown_task_C3_w :
    ∃ e, generate_msa_ipo_document
        ⟨"Example Project", "01", "Example Project", none, "J. Doe, PE", "100000001",
         some "Overall text.", some "Lot text."⟩
        ⟨"ACE Fletcher LLC", "August 15, 2024"⟩
        [("999", ⟨"Ghost Task", 1, "Lump Sum"⟩)]
        "out.docx" = .error e :=
  unknown_task_C3 _ _ _ "out.docx" "999" (by decide) (by decide)

theorem pyTruthyOpt_iff (x : Option String) :
    pyTruthyOpt x = true ↔ ∃ s, x = some s ∧ s ≠ "" := by
  cases x <;> simp [pyTruthyOpt, pyTruthy]

theorem generate_ok (p : ProjectInfo) (c : ClientInfo) (t : List (String × SelTask))
    (o : String) (hcat : ∀ k ∈ t.map Prod.fst, (TASK_DESCRIPTIONS k).isSome) :
    generate_msa_ipo_document p c t o =
      .ok ({ body :=
               titleBlocks p.title p.ipo_number
               ++ openingBlocks c.name c.master_agreement_date
               ++ identBlocks p.name p.name_line2 p.project_manager p.project_number
               ++ (if pyTruthyOpt p.overall_understanding then
                     sectionBlocks "Overall Project Understanding:"
                       [p.overall_understanding.getD ""]
                   else [])
               ++ (if pyTruthyOpt p.lot_understanding then
                     sectionBlocks "Lot Specific Project Understanding:"
                       [p.lot_understanding.getD ""]
                   else [])
               ++ (scopeHeaderBlocks ++ (sortedKeys t).flatMap (taskBlocksOf t)),
             footer := some (footerPara "rev 07/2024"),
             topMargin := some 100, bottomMargin := some 100,
             leftMargin := some 100, rightMargin := some 100 }, o) := by
  have hok : ∀ k ∈ sortedKeys t, (t.lookup k).isSome ∧ (TASK_DESCRIPTIONS k).isSome := by
    intro k hk
    have hk2 : k ∈ t.map Prod.fst := ((sortedKeys_perm t).mem_iff).mp hk
    exact ⟨lookup_isSome_of_mem_keys t k hk2, hcat k hk2⟩
  have hsb : scopeBlocks t =
      .ok (scopeHeaderBlocks ++ (sortedKeys t).flatMap (taskBlocksOf t)) :=
    scopeLoop_ok t (sortedKeys t) scopeHeaderBlocks hok
  by_cases ho : pyTruthyOpt p.overall_understanding = true <;>
  by_cases hl : pyTruthyOpt p.lot_understanding = true <;>
    simp only [generate_msa_ipo_document, add_scope_of_services, hsb, ho, hl,
               add_title_section, add_opening_paragraph, add_project_identification,
               add_section_with_heading, add_simple_footer, if_true, if_false,
               Bool.false_eq_true, ite_false, ite_true, eq_self_iff_true,
               List.append_assoc] <;>
    all_goals rfl

/-- C8: on any input whose selected codes are all in the catalog, the
assembler sets all four page margins to 1 inch and emits exactly, in order:
title block, opening clause, project identification, the overall-understanding
section iff that text is non-empty, the lot-understanding section iff that
text is non-empty, the scope-of-services blocks, and the footer. -/
theorem assembly_order_C8 (p : ProjectInfo) (c : ClientInfo)
    (t : List (String × SelTask)) (o : String)
    (hcat : ∀ k ∈ t.map Prod.fst, (TASK_DESCRIPTIONS k).isSome) :
    ∃ d ps, scopeBlocks t = .ok ps ∧
      generate_msa_ipo_document p c t o = .ok (d, o) ∧
      d.topMargin = some 100 ∧ d.bottomMargin = some 100 ∧
      d.leftMargin = some 100 ∧ d.rightMargin = some 100 ∧
      d.body =
        titleBlocks p.title p.ipo_number
        ++ openingBlocks c.name c.master_agreement_date
        ++ identBlocks p.name p.name_line2 p.project_manager p.project_number
        ++ (if pyTruthyOpt p.overall_understanding then
              sectionBlocks "Overall Project Understanding:"
                [p.overall_understanding.getD ""]
            else [])
        ++ (if pyTruthyOpt p.lot_understanding then
              sectionBlocks "Lot Specific Project Understanding:"
                [p.lot_understanding.getD ""]
            else [])
        ++ ps ∧
      d.footer = some (footerPara "rev 07/2024") ∧
      (pyTruthyOpt p.overall_understanding = true ↔
        ∃ s, p.overall_understanding = some s ∧ s ≠ "") ∧
      (pyTruthyOpt p.lot_understanding = true ↔
        ∃ s, p.lot_understanding = some s ∧ s ≠ "") := by
  have hok : ∀ k ∈ sortedKeys t, (t.lookup k).isSome ∧ (TASK_DESCRIPTIONS k).isSome := by
    intro k hk
    have hk2 : k ∈ t.map Prod.fst := ((sortedKeys_perm t).mem_iff).mp hk
    exact ⟨lookup_isSome_of_mem_keys t k hk2, hcat k hk2⟩
  exact ⟨_, _, scopeLoop_ok t (sortedKeys t) scopeHeaderBlocks hok,
    generate_ok p c t o hcat, rfl, rfl, rfl, rfl, rfl, rfl,
    pyTruthyOpt_iff _, pyTruthyOpt_iff _⟩

theorem assembly_order_C8_w :
    ∃ d ps, scopeBlocks
        [("210", ⟨"Meetings and Coordination", 20000, "Hourly, Not-to-Exceed"⟩)] = .ok ps ∧
      generate_msa_ipo_document
        ⟨"Example Project", "01", "Example Project", none, "J. Doe, PE", "100000001",
         some "Overall text.", some "Lot text."⟩
        ⟨"ACE Fletcher LLC", "August 15, 2024"⟩
        [("210", ⟨"Meetings and Coordination", 20000, "Hourly, Not-to-Exceed"⟩)]
        "out.docx" = .ok (d, "out.docx") ∧
      d.topMargin = some 100 ∧ d.bottomMargin = some 100 ∧
      d.leftMargin = some 100 ∧ d.rightMargin = some 100 ∧
      d.body =
        titleBlocks "Example Project" "01"
        ++ openingBlocks "ACE Fletcher LLC" "August 15, 2024"
        ++ identBlocks "Example Project" none "J. Doe, PE" "100000001"
        ++ (if pyTruthyOpt (some "Overall text.") then
              sectionBlocks "Overall Project Understanding:"
                [(some "Overall text.").getD ""]
            else [])
        ++ (if pyTruthyOpt (some "Lot text.") then
              sectionBlocks "Lot Specific Project Understanding:"
                [(some "Lot text.").getD ""]
            else [])
        ++ ps ∧
      d.footer = some (footerPara "rev 07/2024") ∧
      (pyTruthyOpt (some "Overall text.") = true ↔
        ∃ s, (some "Overall text." : Option String) = some s ∧ s ≠ "") ∧
      (pyTruthyOpt (some "Lot text.") = true ↔
        ∃ s, (some "Lot text." : Option String) = some s ∧ s ≠ "") :=
  assembly_order_C8
    ⟨"Example Project", "01", "Example Project", none, "J. Doe, PE", "100000001",
     some "Overall text.", some "Lot text."⟩
    ⟨"ACE Fletcher LLC", "August 15, 2024"⟩
    [("210", ⟨"Meetings and Coordination", 20000, "Hourly, Not-to-Exceed"⟩)]
    "out.docx" (by decide)

theorem paraOk_blankPara : paraOk blankPara := by
  constructor
  · intro r hr; cases hr
  · intro h; exact absurd rfl h

theorem paraOk_singleCalibri (t0 : String) (sz : Nat) (b i u : Bool) (al : Option Align)
    (ts : List Nat) :
    paraOk { runs := [{ text := t0, font := some "Calibri", sizePt := some sz, bold := b,
                        italic := i, underline := u }],
             alignment := al, spaceAfterPt := some 0, lineSpacing := some 1, tabStops := ts } := by
  constructor
  · intro r hr
    simp only [List.mem_cons, List.not_mem_nil, or_false] at hr
    subst hr; exact Or.inl rfl
  · intro _; exact ⟨rfl, rfl⟩

theorem paraOk_kvPara (a b : String) : paraOk (kvPara a b) := by
  constructor
  · intro r hr
    simp only [kvPara, boldRun, List.mem_cons, List.not_mem_nil, or_false] at hr
    rcases hr with rfl | rfl <;> exact Or.inl rfl
  · intro _; exact ⟨rfl, rfl⟩

theorem paraOk_line2Para (s : String) : paraOk (line2Para s) := by
  constructor
  · intro r hr
    simp only [line2Para, boldRun, List.mem_cons, List.not_mem_nil, or_false] at hr
    rcases hr with rfl | rfl
    · exact Or.inr ⟨rfl, rfl⟩
    · exact Or.inl rfl
  · intro _; exact ⟨rfl, rfl⟩

theorem paraOk_titleBlocks (a b : String) : ∀ q ∈ titleBlocks a b, paraOk q := by
  intro q hq
  simp only [titleBlocks, List.mem_cons, List.not_mem_nil, or_false] at hq
  rcases hq with rfl | rfl | rfl | rfl <;>
    first
      | exact paraOk_blankPara
      | exact paraOk_singleCalibri _ _ _ _ _ _ _

theorem paraOk_openingBlocks (a b : String) : ∀ q ∈ openingBlocks a b, paraOk q := by
  intro q hq
  simp only [openingBlocks, List.mem_cons, List.not_mem_nil, or_false] at hq
  rcases hq with rfl | rfl <;>
    first
      | exact paraOk_blankPara
      | exact paraOk_singleCalibri _ _ _ _ _ _ _

theorem paraOk_identBlocks (pn : String) (l2 : Option String) (pm num : String) :
    ∀ q ∈ identBlocks pn l2 pm num, paraOk q := by
  intro q hq
  by_cases h : pyTruthyOpt l2 = true <;>
    simp only [identBlocks, h, if_true, if_false, Bool.not_eq_true, Bool.false_eq_true,
               ite_true, ite_false, List.append_nil, List.mem_append, List.mem_cons,
               List.not_mem_nil, or_false, or_assoc] at hq
  · rcases hq with rfl | rfl | rfl | rfl | rfl | rfl | rfl <;>
      first
        | exact paraOk_blankPara
        | exact paraOk_kvPara _ _
        | exact paraOk_line2Para _
        | exact paraOk_singleCalibri _ _ _ _ _ _ _
  · rcases hq with rfl | rfl | rfl | rfl | rfl | rfl <;>
      first
        | exact paraOk_blankPara
        | exact paraOk_kvPara _ _
        | exact paraOk_singleCalibri _ _ _ _ _ _ _

theorem paraOk_sectionBlocks (h : String) (cs : List String) :
    ∀ q ∈ sectionBlocks h cs, paraOk q := by
  intro q hq
  simp only [sectionBlocks, List.mem_append, List.mem_cons, List.not_mem_nil, or_false,
             List.mem_flatMap] at hq
  rcases hq with (rfl | rfl) | ⟨content, _, hq2⟩
  · exact paraOk_singleCalibri _ _ _ _ _ _ _
  · exact paraOk_blankPara
  · rcases hq2 with rfl | rfl
    · exact paraOk_singleCalibri _ _ _ _ _ _ _
    · exact paraOk_blankPara

theorem paraOk_descBlocks (d : String) : ∀ q ∈ descBlocks d, paraOk q := by
  intro q hq
  cases h : is_subsection d <;>
    simp only [descBlocks, h, if_true, if_false, ite_true, ite_false, Bool.false_eq_true,
               List.append_nil, List.mem_append, List.mem_cons, List.not_mem_nil,
               or_false] at hq
  · rcases hq with rfl | rfl
    · have := paraOk_singleCalibri d 11 false (is_subsection d) false
        (some Align.justify) []
      rw [h] at this
      exact this
    · exact paraOk_blankPara
  · subst hq
    have := paraOk_singleCalibri d 11 false (is_subsection d) false (some Align.justify) []
    rw [h] at this
    exact this

theorem paraOk_taskBlocks (k : String) (t : SelTask) (ds : List String) :
    ∀ q ∈ taskBlocks k t ds, paraOk q := by
  intro q hq
  simp only [taskBlocks, List.mem_append, List.mem_cons, List.not_mem_nil, or_false,
             List.mem_flatMap] at hq
  rcases hq with (rfl | rfl) | ⟨d, _, hd⟩
  · exact paraOk_singleCalibri _ _ _ _ _ _ _
  · exact paraOk_blankPara
  · exact paraOk_descBlocks d q hd

theorem paraOk_scopeResult (sel : List (String × SelTask)) (ks : List String) :
    ∀ q ∈ scopeHeaderBlocks ++ ks.flatMap (taskBlocksOf sel), paraOk q := by
  intro q hq
  rcases List.mem_append.mp hq with h | h
  · simp only [scopeHeaderBlocks, List.mem_cons, List.not_mem_nil, or_false] at h
    rcases h with rfl | rfl
    · exact paraOk_singleCalibri _ _ _ _ _ _ _
    · exact paraOk_blankPara
  · rcases List.mem_flatMap.mp h with ⟨k, _, hk⟩
    exact paraOk_taskBlocks _ _ _ q hk

theorem paraOk_body (p : ProjectInfo) (c : ClientInfo) (t : List (String × SelTask)) :
    ∀ q ∈ (titleBlocks p.title p.ipo_number
           ++ openingBlocks c.name c.master_agreement_date
           ++ identBlocks p.name p.name_line2 p.project_manager p.project_number
           ++ (if pyTruthyOpt p.overall_understanding then
                 sectionBlocks "Overall Project Understanding:"
                   [p.overall_understanding.getD ""]
               else [])
           ++ (if pyTruthyOpt p.lot_understanding then
                 sectionBlocks "Lot Specific Project Understanding:"
                   [p.lot_understanding.getD ""]
               else [])
           ++ (scopeHeaderBlocks ++ (sortedKeys t).flatMap (taskBlocksOf t))), paraOk q := by
  intro q hq
  simp only [List.mem_append, or_assoc] at hq
  rcases hq with h | h | h | h | h | h
  · exact paraOk_titleBlocks _ _ q h
  · exact paraOk_openingBlocks _ _ q h
  · exact paraOk_identBlocks _ _ _ _ q h
  · by_cases hc : pyTruthyOpt p.overall_understanding = true
    · rw [if_pos hc] at h; exact paraOk_sectionBlocks _ _ q h
    · rw [if_neg hc] at h; exact absurd h (List.not_mem_nil q)
  · by_cases hc : pyTruthyOpt p.lot_understanding = true
    · rw [if_pos hc] at h; exact paraOk_sectionBlocks _ _ q h
    · rw [if_neg hc] at h; exact absurd h (List.not_mem_nil q)
  · exact paraOk_scopeResult t (sortedKeys t) q (List.mem_append.mpr h)

/-- C10 counterexample: not every run created by the section builders is given
the Calibri font — when the optional second project-name line is present, the
identification builder creates its leading tab run with `para.add_run('\t')`
and never assigns a font to it (the variable is immediately rebound), so that
run carries no font attribute at all. -/
theorem calibri_C10_cex :
    ¬ (∀ q ∈ identBlocks "A" (some "B") "C" "D", ∀ r ∈ q.runs,
        r.font = some "Calibri") := by
  decide

/-- C10 amended: every run the builders create either carries the explicit
Calibri font or is the bare tab run of the optional second project-name line
(which gets no font attribute); every non-blank body paragraph has
space-after 0pt and line spacing 1.0, so vertical rhythm is carried solely by
the blank-line separator blocks; the footer run is explicitly Calibri. -/
theorem calibri_C10_amended (p : ProjectInfo) (c : ClientInfo)
    (t : List (String × SelTask)) (o : String)
    (hcat : ∀ k ∈ t.map Prod.fst, (TASK_DESCRIPTIONS k).isSome) :
    ∃ d, generate_msa_ipo_document p c t o = .ok (d, o) ∧
      (∀ para ∈ d.body, ∀ r ∈ para.runs,
        r.font = some "Calibri" ∨ (r.text = "\t" ∧ r.font = none)) ∧
      (∀ para ∈ d.body, para.runs ≠ [] →
        para.spaceAfterPt = some 0 ∧ para.lineSpacing = some 1) ∧
      (∀ fp, d.footer = some fp → ∀ r ∈ fp.runs, r.font = some "Calibri") := by
  refine ⟨_, generate_ok p c t o hcat, ?_, ?_, ?_⟩
  · intro para hpara r hr
    exact (paraOk_body p c t para hpara).1 r hr
  · intro para hpara hne
    exact (paraOk_body p c t para hpara).2 hne
  · intro fp hfp r hr
    have h2 : footerPara "rev 07/2024" = fp := Option.some.inj hfp
    subst h2
    simp only [footerPara, List.mem_cons, List.not_mem_nil, or_false] at hr
    subst hr
    rfl

theorem calibri_C10_amended_w :
    ∃ d, generate_msa_ipo_document
        ⟨"Example Project", "01", "Example Project", some "Lot A Hotel", "J. Doe, PE",
         "100000001", some "Overall text.", some "Lot text."⟩
        ⟨"ACE Fletcher LLC", "August 15, 2024"⟩
        [("210", ⟨"Meetings and Coordination", 20000, "Hourly, Not-to-Exceed"⟩)]
        "out.docx" = .ok (d, "out.docx") ∧
      (∀ para ∈ d.body, ∀ r ∈ para.runs,
        r.font = some "Calibri" ∨ (r.text = "\t" ∧ r.font = none)) ∧
      (∀ para ∈ d.body, para.runs ≠ [] →
        para.spaceAfterPt = some 0 ∧ para.lineSpacing = some 1) ∧
      (∀ fp, d.footer = some fp → ∀ r ∈ fp.runs, r.font = some "Calibri") :=
  calibri_C10_amended
    ⟨"Example Project", "01", "Example Project", some "Lot A Hotel", "J. Doe, PE",
     "100000001", some "Overall text.", some "Lot text."⟩
    ⟨"ACE Fletcher LLC", "August 15, 2024"⟩
    [("210", ⟨"Meetings and Coordination", 20000, "Hourly, Not-to-Exceed"⟩)]
    "out.docx" (by decide)
